import Mathlib

/-!
Verification development for the adsorption and resistance simulator
(src/Adsorption.py).  The embedded core is the body of
AdsorptionSimulator.run_simulation: input validation, the derived
molecule budget, the 50-frame deposition loop, the once-per-second
time-series sampling, and the per-frame rasterization of the point
cloud into a 50 by 50 density grid.

Modelling conventions:
- Python float arithmetic is embedded as exact rational arithmetic;
  the decimal literals of the source (6.022e23, 7.45e-7, 1e6, 2.0,
  1.2, 0.8, 10/50) are exact rationals here.
- Python int(x) truncates toward zero; it is embedded as pyInt.
- The numeric text fields are embedded as already-parsed values of
  type Option Rat: the external float(text) call either fails (none)
  or yields a number (some).  The range check on the sticking
  coefficient is taken verbatim from the source.
- np.random.uniform(0, high, n) is embedded as a position generator
  passed as a parameter; for a negative n the numpy call raises
  ValueError (negative dimensions are not allowed), embedded as the
  error value PyError.negativeDimensions.
- np.array(adsorbed_positions) applied to the empty list yields a
  one-dimensional array of shape (0,), so the column slice ads[:,0]
  in the rasterization step raises IndexError; this is embedded as
  the error value PyError.indexError raised when the cloud is empty
  at the rasterization point of a frame.
- The three parallel Python lists time_points_1s, ads_counts_1s and
  resistance_1s are embedded as one list of Sample records; since
  exp is transcendental, a Sample stores the coverage that the code
  feeds to np.exp, and resistance_of recovers the real number that
  the code appends to resistance_1s.
-/

namespace Adsorption

/-- Coordinates of one adsorption event: x, y, z in millimeters. -/
abbrev Ev : Type := ℚ × ℚ × ℚ

/-- Uncaught Python exceptions that the simulation loop can raise. -/
inductive PyError where
  | negativeDimensions : PyError
  | indexError : PyError
deriving DecidableEq

/-- Validated simulation parameters, as bound in run_simulation. -/
structure Params where
  surface_type : String
  sccm : ℚ
  stick_coeff : ℚ
  r0 : ℚ
  k : ℚ
deriving DecidableEq

/-- One record of the once-per-second time series: the three parallel
lists of the source merged into one record.  The coverage field holds
the value min(total_adsorbed / max_sites, 1.0) that the code feeds to
np.exp when it appends to resistance_1s. -/
structure Sample where
  second : ℕ
  count : ℕ
  coverage : ℚ
deriving DecidableEq

/-- Mutable state of the frame loop. -/
structure SimState where
  adsorbed_positions : List Ev
  time_points : List Sample
  current_second : ℕ
deriving DecidableEq

/-- Avogadro number, constant NA of the source. -/
def NA : ℚ := 6.022e23

/-- Mol per second per SCCM at STP, constant SCCM_to_mols of the source. -/
def SCCM_to_mols : ℚ := 7.45e-7

/-- Surface length in mm. -/
def surface_length : ℚ := 10

/-- Surface width in mm. -/
def surface_width : ℚ := 10

/-- Surface thickness in mm; the fixed z coordinate of every event. -/
def surface_thickness : ℚ := 2

/-- Total simulated time in seconds. -/
def total_time : ℚ := 10

/-- Number of frames of one run. -/
def n_frames : ℕ := 50

/-- Duration of one frame, total_time / n_frames in the source. -/
def time_per_frame : ℚ := 10 / 50

/-- Total adsorption sites, constant max_sites of the source. -/
def max_sites : ℚ := 1e6

/-- Python int() applied to a float: truncation toward zero. -/
def pyInt (q : ℚ) : ℤ := if q < 0 then -⌊-q⌋ else ⌊q⌋

/-- Validation block of run_simulation: the four numeric fields are
the results of float() on the text inputs (none when parsing raised),
and the chained comparison 0 <= stick_coeff <= 1 must hold; any
failure lands in the bare except clause. -/
def validate (surface : String) (sccmT stickT r0T kT : Option ℚ) : Option Params :=
  match sccmT, stickT, r0T, kT with
  | some sccm, some stick, some r0, some k =>
      if 0 ≤ stick ∧ stick ≤ 1 then some ⟨surface, sccm, stick, r0, k⟩ else none
  | _, _, _, _ => none

/-- Molar flow, mol_per_s of the source. -/
def mol_per_s (p : Params) : ℚ := p.sccm * SCCM_to_mols

/-- Molecule flow, molecule_per_s of the source. -/
def molecule_per_s (p : Params) : ℚ := mol_per_s p * NA

/-- Per-frame molecule budget, molecule_per_frame of the source:
int(molecule_per_s * time_per_frame * stick_coeff). -/
def molecule_per_frame (p : Params) : ℤ :=
  pyInt (molecule_per_s p * time_per_frame * p.stick_coeff)

/-- Morphology lookup of the source: the if/elif chain on the surface
type string, defaulting to 1.0. -/
def adsorption_multiplier (surface : String) : ℚ :=
  if surface = "nanorod" then 2.0
  else if surface = "nanoflake" then 1.2
  else if surface = "nanoparticle" then 0.8
  else 1.0

/-- Per-frame effective molecule count, effective_molecules of the
source: int(molecule_per_frame * adsorption_multiplier). -/
def effective_molecules (p : Params) : ℤ :=
  pyInt ((molecule_per_frame p : ℚ) * adsorption_multiplier p.surface_type)

/-- Position generator standing for the stream of np.random.uniform
draws: gen t i is the pair of the i-th x draw and the i-th y draw of
frame t. -/
abbrev Gen : Type := ℕ → ℕ → ℚ × ℚ

/-- Events appended during frame t: one per generated position, with
the z coordinate filled with surface_thickness by np.full. -/
def frame_points (eff : ℕ) (gen : Gen) (t : ℕ) : List Ev :=
  (List.range eff).map (fun i => ((gen t i).1, (gen t i).2, surface_thickness))

/-- Body of one loop iteration after a successful position draw:
append the events of this frame, then record a time-series sample when the
elapsed time (t+1) * time_per_frame reaches current_second + 1. -/
def stepOk (eff : ℕ) (gen : Gen) (t : ℕ) (st : SimState) : SimState :=
  let cloud := st.adsorbed_positions ++ frame_points eff gen t
  if ((t : ℚ) + 1) * time_per_frame ≥ (st.current_second : ℚ) + 1 then
    ⟨cloud,
     st.time_points ++
       [⟨st.current_second + 1, cloud.length,
         min ((cloud.length : ℚ) / max_sites) 1⟩],
     st.current_second + 1⟩
  else
    ⟨cloud, st.time_points, st.current_second⟩

/-- One full loop iteration of frame t, with the two uncaught failure
modes: np.random.uniform raises on a negative count, and the
rasterization step raises IndexError when the cloud is empty because
np.array of the empty list has no second axis. -/
def stepFrame (effZ : ℤ) (gen : Gen) (t : ℕ) (st : SimState) : Except PyError SimState :=
  if effZ < 0 then Except.error PyError.negativeDimensions
  else
    let st1 := stepOk effZ.toNat gen t st
    if st1.adsorbed_positions = [] then Except.error PyError.indexError
    else Except.ok st1

/-- State before the first frame: empty cloud, empty series,
current_second = 0. -/
def initState : SimState := ⟨[], [], 0⟩

/-- State after running the first n frames (frames 0 to n-1), or the
first uncaught exception. -/
def simN (effZ : ℤ) (gen : Gen) : ℕ → Except PyError SimState
  | 0 => Except.ok initState
  | n + 1 =>
      match simN effZ gen n with
      | Except.error e => Except.error e
      | Except.ok st => stepFrame effZ gen n st

/-- The whole frame loop of run_simulation on validated parameters. -/
def simulate (p : Params) (gen : Gen) : Except PyError SimState :=
  simN (effective_molecules p) gen n_frames

/-- Observable outcome of one click of the start button. -/
inductive RunOutcome where
  | invalidInput : RunOutcome
  | crashed : PyError → RunOutcome
  | completed : SimState → RunOutcome
deriving DecidableEq

/-- Top level of run_simulation: the try/except validation gate, then
the frame loop; an exception in the loop propagates uncaught. -/
def run_simulation (surface : String) (sccmT stickT r0T kT : Option ℚ) (gen : Gen) : RunOutcome :=
  match validate surface sccmT stickT r0T kT with
  | none => RunOutcome.invalidInput
  | some p =>
      match simulate p gen with
      | Except.error e => RunOutcome.crashed e
      | Except.ok st => RunOutcome.completed st

/-- Status label text at the end of run_simulation. -/
def status_of : RunOutcome → String
  | RunOutcome.invalidInput => "Please enter valid inputs."
  | RunOutcome.crashed _ => "Simulation running..."
  | RunOutcome.completed _ =>
      "✅ Simulation completed. GIF, heatmap, adsorption and resistance graphs generated."

/-- Time series surfaced to the plotting layer: empty unless the run
completed. -/
def samples_of : RunOutcome → List Sample
  | RunOutcome.completed st => st.time_points
  | _ => []

/-- Pure unfolding of the loop for a nonnegative effective count:
the state after the first n frames. -/
def runState (eff : ℕ) (gen : Gen) : ℕ → SimState
  | 0 => initState
  | n + 1 => stepOk eff gen n (runState eff gen n)

/-- Closed form of the cloud after the first n frames. -/
def cloud_after (eff : ℕ) (gen : Gen) : ℕ → List Ev
  | 0 => []
  | n + 1 => cloud_after eff gen n ++ frame_points eff gen n

/-- Closed form of the j-th time-series record (j counted from 1). -/
def sample_at (eff : ℕ) (j : ℕ) : Sample :=
  ⟨j, 5 * j * eff, min (((5 * j * eff : ℕ) : ℚ) / max_sites) 1⟩

/-- Axis bin of np.histogram2d with 50 bins over [0, hi]: values
outside the range are dropped, interior edges are left closed, and
the last bin also contains the upper boundary. -/
def bin_index (hi x : ℚ) : Option (Fin 50) :=
  if 0 ≤ x ∧ x ≤ hi then
    some ⟨min (⌊50 * x / hi⌋).toNat 49, Nat.lt_succ_of_le (Nat.min_le_right _ _)⟩
  else none

/-- Cell of the density grid receiving one event, when both of its
coordinates are in range; np.histogram2d drops a point entirely when
either coordinate is out of range. -/
def bin_of (ev : Ev) : Option (Fin 50 × Fin 50) :=
  match bin_index surface_length ev.1, bin_index surface_width ev.2.1 with
  | some i, some j => some (i, j)
  | _, _ => none

/-- The 50 by 50 histogram the rasterization step computes from the
whole current cloud. -/
def density_grid (cloud : List Ev) (ij : Fin 50 × Fin 50) : ℕ :=
  cloud.countP (fun ev => decide (bin_of ev = some ij))

/-- Resistance value the code appends to resistance_1s for a sample:
r0 * np.exp(k * coverage). -/
noncomputable def resistance_of (r0 k : ℚ) (s : Sample) : ℝ :=
  (r0 : ℝ) * Real.exp ((k : ℝ) * (s.coverage : ℝ))

/-- Concrete position generator used for witnesses: every draw is the
in-range point (1, 1). -/
def gen0 : Gen := fun _ _ => (1, 1)

/-- Concrete witness parameters: flow rate 2e-17 together with
sticking coefficient 1 gives a per-frame budget of 1 molecule. -/
def pW : Params := ⟨"", 2e-17, 1, 1000, 2⟩

/-- Truncation toward zero agrees with the floor on nonnegative
arguments. -/
theorem pyInt_eq_floor {q : ℚ} (h : 0 ≤ q) : pyInt q = ⌊q⌋ := by
  rw [pyInt, if_neg (not_lt.mpr h)]

/-- A positive truncation forces a nonnegative argument. -/
theorem nonneg_of_pyInt_pos {q : ℚ} (h : 1 ≤ pyInt q) : 0 ≤ q := by
  by_contra hq
  push_neg at hq
  have hfl : 0 ≤ ⌊-q⌋ := Int.floor_nonneg.mpr (le_of_lt (neg_pos.mpr hq))
  rw [pyInt, if_pos hq] at h
  omega

/-- Number of events appended during one frame. -/
theorem frame_points_length (eff : ℕ) (gen : Gen) (t : ℕ) :
    (frame_points eff gen t).length = eff := by
  simp [frame_points]

/-- Both branches of the loop body extend the cloud by the events of
this frame. -/
theorem stepOk_adsorbed (eff : ℕ) (gen : Gen) (t : ℕ) (st : SimState) :
    (stepOk eff gen t st).adsorbed_positions
      = st.adsorbed_positions ++ frame_points eff gen t := by
  simp only [stepOk]
  split <;> rfl

/-- The sampling guard of frame t with counter c holds exactly when
t is at least 5c + 4, that is when the elapsed time (t+1)/5 reaches
the boundary c + 1. -/
theorem trigger_iff (t c : ℕ) :
    (((t : ℚ) + 1) * time_per_frame ≥ (c : ℚ) + 1) ↔ 5 * c + 4 ≤ t := by
  rw [ge_iff_le, time_per_frame, show ((10 : ℚ) / 50) = 1 / 5 by norm_num,
    mul_one_div, le_div_iff₀ (by norm_num : (0 : ℚ) < 5)]
  constructor
  · intro h
    have h2 : ((5 * c + 4 : ℕ) : ℚ) ≤ (t : ℚ) := by push_cast; linarith
    exact_mod_cast h2
  · intro h
    have h2 : ((5 * c + 4 : ℕ) : ℚ) ≤ (t : ℚ) := by exact_mod_cast h
    push_cast at h2
    linarith

/-- Length of the cloud after the first n frames. -/
theorem cloud_after_length (eff : ℕ) (gen : Gen) :
    ∀ n, (cloud_after eff gen n).length = n * eff
  | 0 => by simp [cloud_after]
  | n + 1 => by
      simp [cloud_after, cloud_after_length eff gen n, frame_points_length,
        Nat.succ_mul]

/-- Invariant of the frame loop: after the first n frames the cloud is
cloud_after n, the ratchet counter is n / 5, and the recorded series is
the closed-form list of samples 1 to n / 5. -/
theorem runState_spec (eff : ℕ) (gen : Gen) :
    ∀ n, (runState eff gen n).adsorbed_positions = cloud_after eff gen n
      ∧ (runState eff gen n).current_second = n / 5
      ∧ (runState eff gen n).time_points
          = (List.range (n / 5)).map (fun i => sample_at eff (i + 1))
  | 0 => by simp [runState, initState, cloud_after]
  | n + 1 => by
      obtain ⟨ha, hc, ht⟩ := runState_spec eff gen n
      simp only [runState, stepOk, ha, hc, ht]
      by_cases h5 : n % 5 = 4
      · rw [if_pos ((trigger_iff n (n / 5)).mpr (by omega))]
        have hlen : (cloud_after eff gen n ++ frame_points eff gen n).length
            = (n + 1) * eff := by
          simp [cloud_after_length, frame_points_length, Nat.succ_mul]
        have hdiv : (n + 1) / 5 = n / 5 + 1 := by omega
        have hmul : 5 * (n / 5 + 1) * eff = (n + 1) * eff := by
          have h51 : 5 * (n / 5 + 1) = n + 1 := by omega
          rw [h51]
        have hgoal : (List.range (n / 5)).map (fun i => sample_at eff (i + 1))
            ++ [⟨n / 5 + 1, (cloud_after eff gen n ++ frame_points eff gen n).length,
                 min (((cloud_after eff gen n ++ frame_points eff gen n).length : ℚ)
                   / max_sites) 1⟩]
            = (List.range ((n + 1) / 5)).map (fun i => sample_at eff (i + 1)) := by
          rw [hdiv, List.range_succ, List.map_append]
          simp only [List.map_cons, List.map_nil, List.append_cancel_left_eq]
          rw [sample_at, hmul, hlen]
        exact ⟨rfl, (by omega : n / 5 + 1 = (n + 1) / 5), hgoal⟩
      · rw [if_neg (by rw [trigger_iff]; omega)]
        have hdiv : (n + 1) / 5 = n / 5 := by omega
        have hgoal : (List.range (n / 5)).map (fun i => sample_at eff (i + 1))
            = (List.range ((n + 1) / 5)).map (fun i => sample_at eff (i + 1)) := by
          rw [hdiv]
        exact ⟨rfl, (by omega : n / 5 = (n + 1) / 5), hgoal⟩

/-- For a positive effective count no frame raises: the loop runs pure
and reaches the state runState. -/
theorem simN_ok (effZ : ℤ) (gen : Gen) (h : 1 ≤ effZ) :
    ∀ n, simN effZ gen n = Except.ok (runState effZ.toNat gen n)
  | 0 => rfl
  | n + 1 => by
      simp only [simN, simN_ok effZ gen h n]
      rw [stepFrame, if_neg (by omega : ¬ effZ < 0)]
      have hne : (stepOk effZ.toNat gen n (runState effZ.toNat gen n)).adsorbed_positions
          ≠ [] := by
        rw [stepOk_adsorbed]
        intro hcontra
        have hl := congrArg List.length hcontra
        simp [frame_points_length] at hl
        omega
      rw [if_neg hne]
      rfl

/-- An uncaught exception ends the run for good. -/
theorem simN_error_succ (effZ : ℤ) (gen : Gen) (e : PyError) (n : ℕ)
    (h : simN effZ gen n = Except.error e) :
    simN effZ gen (n + 1) = Except.error e := by
  simp [simN, h]

/-- A nonpositive effective count raises already in frame 0: a strictly
negative one at the position draw, a zero one at the rasterization of
the still empty cloud. -/
theorem simN_fail (effZ : ℤ) (gen : Gen) (h : effZ ≤ 0) :
    ∃ e, simN effZ gen 1 = Except.error e := by
  rcases lt_or_eq_of_le h with hlt | heq
  · exact ⟨PyError.negativeDimensions, by simp [simN, stepFrame, if_pos hlt]⟩
  · subst heq
    refine ⟨PyError.indexError, ?_⟩
    have hempty : (stepOk (0 : ℕ) gen 0 initState).adsorbed_positions = [] := by
      rw [stepOk_adsorbed]
      simp [initState, frame_points]
    simp [simN, stepFrame, hempty]

/-- Once an uncaught exception happens, every later prefix of the run
ends with it. -/
theorem simN_error_le (effZ : ℤ) (gen : Gen) (e : PyError) {n m : ℕ}
    (hnm : n ≤ m) (h : simN effZ gen n = Except.error e) :
    simN effZ gen m = Except.error e := by
  induction m with
  | zero =>
      have hn0 : n = 0 := by omega
      rw [← hn0]; exact h
  | succ m ih =>
      by_cases hm : n ≤ m
      · exact simN_error_succ _ _ _ _ (ih hm)
      · have hn1 : n = m + 1 := by omega
        rw [← hn1]; exact h

/-- Every event of the cloud is one generated draw paired with the
constant z coordinate. -/
theorem mem_cloud_after {eff : ℕ} {gen : Gen} :
    ∀ {n : ℕ} {ev : Ev}, ev ∈ cloud_after eff gen n →
      ∃ t i, ev = ((gen t i).1, (gen t i).2, surface_thickness)
  | 0, ev, h => absurd h (by simp [cloud_after])
  | n + 1, ev, h => by
      rw [cloud_after, List.mem_append] at h
      rcases h with h | h
      · exact mem_cloud_after h
      · rw [frame_points, List.mem_map] at h
        obtain ⟨i, _, hi⟩ := h
        exact ⟨n, i, hi.symm⟩

/-- An event whose coordinates lie in the surface rectangle lands in
some cell of the histogram. -/
theorem bin_of_isSome {ev : Ev} (hx0 : 0 ≤ ev.1) (hx1 : ev.1 ≤ surface_length)
    (hy0 : 0 ≤ ev.2.1) (hy1 : ev.2.1 ≤ surface_width) :
    (bin_of ev).isSome = true := by
  rw [bin_of, bin_index, bin_index, if_pos ⟨hx0, hx1⟩, if_pos ⟨hy0, hy1⟩]
  rfl

/-- Summing the indicator of one cell over all cells counts whether
the event was binned at all. -/
theorem sum_ite_bin (o : Option (Fin 50 × Fin 50)) :
    (Finset.univ.sum fun ij => if o = some ij then 1 else 0)
      = (if o.isSome then 1 else 0) := by
  cases o with
  | none => simp
  | some v => simp [Finset.sum_ite_eq]

/-- The grand total of the 50 by 50 histogram counts exactly the
events whose coordinates are in range. -/
theorem density_grid_total (cloud : List Ev) :
    Finset.univ.sum (density_grid cloud)
      = cloud.countP (fun ev => (bin_of ev).isSome) := by
  induction cloud with
  | nil => simp [density_grid]
  | cons a l ih =>
      have hstep : ∀ ij : Fin 50 × Fin 50,
          density_grid (a :: l) ij
            = density_grid l ij + (if bin_of a = some ij then 1 else 0) := by
        intro ij
        rw [density_grid, density_grid, List.countP_cons]
        simp
      rw [Finset.sum_congr rfl (fun ij _ => hstep ij), Finset.sum_add_distrib, ih,
        sum_ite_bin, List.countP_cons]

/-- A completed run forces a positive effective count and lands in the
pure unfolding of the loop. -/
theorem simulate_ok (p : Params) (gen : Gen) (st : SimState)
    (hok : simulate p gen = Except.ok st) :
    1 ≤ effective_molecules p
      ∧ st = runState (effective_molecules p).toNat gen 50 := by
  by_cases h : 1 ≤ effective_molecules p
  · refine ⟨h, ?_⟩
    have hsim := simN_ok (effective_molecules p) gen h 50
    rw [simulate, n_frames, hsim] at hok
    exact (Except.ok.injEq _ _).mp hok.symm
  · exfalso
    obtain ⟨e, he⟩ := simN_fail (effective_molecules p) gen (by omega)
    have hall : ∀ k, simN (effective_molecules p) gen (1 + k) = Except.error e := by
      intro k
      induction k with
      | zero => simpa using he
      | succ k ih =>
          rw [show 1 + (k + 1) = (1 + k) + 1 by omega]
          exact simN_error_succ _ _ _ _ ih
    have h50 := hall 49
    rw [show 1 + 49 = 50 from rfl] at h50
    rw [simulate, n_frames, h50] at hok
    exact Except.noConfusion hok

/-- The witness parameters produce exactly one molecule per frame. -/
theorem effective_pW : effective_molecules pW = 1 := by
  simp +decide only [effective_molecules, molecule_per_frame, molecule_per_s,
    mol_per_s, pyInt, NA, SCCM_to_mols, time_per_frame, adsorption_multiplier, pW]
  norm_num

/-- The witness run completes and reaches the pure loop state. -/
theorem simulate_pW : simulate pW gen0 = Except.ok (runState 1 gen0 50) := by
  have h := simN_ok (effective_molecules pW) gen0 (by rw [effective_pW]) 50
  rw [simulate, n_frames, h, effective_pW]
  rfl

/-- C1.  The spec requires that a validated parameter set with a zero
per-frame effective molecule count (flow rate 0 with sticking
coefficient 1) runs to completion, rasterizing zero-event frames and
recording all 10 samples at the baseline resistance.  The code
instead crashes in frame 0: with the point cloud still empty,
np.array of the empty list is one-dimensional, so the column slice of
the rasterization step raises IndexError and the run aborts with no
samples.  This theorem evaluates the embedded code at that failing
input. -/
theorem claim1_zero_budget_run_crashes :
    validate "nanorod" (some 0) (some 1) (some 1000) (some 2)
        = some ⟨"nanorod", 0, 1, 1000, 2⟩
    ∧ effective_molecules ⟨"nanorod", 0, 1, 1000, 2⟩ = 0
    ∧ run_simulation "nanorod" (some 0) (some 1) (some 1000) (some 2) gen0
        = RunOutcome.crashed PyError.indexError := by
  have hval : validate "nanorod" (some 0) (some 1) (some 1000) (some 2)
      = some ⟨"nanorod", 0, 1, 1000, 2⟩ := by norm_num [validate]
  have heff : effective_molecules ⟨"nanorod", 0, 1, 1000, 2⟩ = 0 := by
    simp +decide only [effective_molecules, molecule_per_frame, molecule_per_s,
      mol_per_s, pyInt, NA, SCCM_to_mols, time_per_frame, adsorption_multiplier]
    norm_num
  have hempty : (stepOk (0 : ℕ) gen0 0 initState).adsorbed_positions = [] := by
    rw [stepOk_adsorbed]
    simp [initState, frame_points]
  have h1 : simN (0 : ℤ) gen0 1 = Except.error PyError.indexError := by
    simp [simN, stepFrame, hempty]
  have h50 : simulate ⟨"nanorod", 0, 1, 1000, 2⟩ gen0
      = Except.error PyError.indexError := by
    rw [simulate, heff, n_frames]
    exact simN_error_le _ _ _ (by omega) h1
  exact ⟨hval, heff, by simp [run_simulation, hval, h50]⟩

/-- C10.  A negative flow rate passes validation, makes the effective
per-frame count negative, and the run then fails during the
deposition step itself (np.random.uniform is asked for a negative
number of samples and raises), rather than completing or being
rejected; the failure propagates uncaught. -/
theorem claim10_negative_flow_crash :
    validate "nanorod" (some (-1)) (some 1) (some 1000) (some 2)
        = some ⟨"nanorod", -1, 1, 1000, 2⟩
    ∧ effective_molecules ⟨"nanorod", -1, 1, 1000, 2⟩ < 0
    ∧ run_simulation "nanorod" (some (-1)) (some 1) (some 1000) (some 2) gen0
        = RunOutcome.crashed PyError.negativeDimensions := by
  have hval : validate "nanorod" (some (-1)) (some 1) (some 1000) (some 2)
      = some ⟨"nanorod", -1, 1, 1000, 2⟩ := by norm_num [validate]
  have heff : effective_molecules ⟨"nanorod", -1, 1, 1000, 2⟩
      = -179455600000000000 := by
    simp +decide only [effective_molecules, molecule_per_frame, molecule_per_s,
      mol_per_s, pyInt, NA, SCCM_to_mols, time_per_frame, adsorption_multiplier]
    norm_num
  have h1 : simN (-179455600000000000 : ℤ) gen0 1
      = Except.error PyError.negativeDimensions := by
    norm_num [simN, stepFrame]
  have h50 : simulate ⟨"nanorod", -1, 1, 1000, 2⟩ gen0
      = Except.error PyError.negativeDimensions := by
    rw [simulate, heff, n_frames]
    exact simN_error_le _ _ _ (by omega) h1
  exact ⟨hval, by rw [heff]; norm_num, by simp [run_simulation, hval, h50]⟩

/-- C3, counterexample.  The claim states that the per-frame budget is
the floor of flow_rate times 7.45e-7 times 6.022e23 times 0.2 times
the sticking coefficient even for negative flow rates, but the code
applies Python int(), which truncates toward zero: at the validated
flow rate -1e-17 with sticking coefficient 1 the product is
-0.897278, the code yields 0, and the floor is -1. -/
theorem claim3_counterexample :
    validate "nanorod" (some (-(1e-17))) (some 1) (some 1000) (some 2)
        = some ⟨"nanorod", -(1e-17), 1, 1000, 2⟩
    ∧ molecule_per_frame ⟨"nanorod", -(1e-17), 1, 1000, 2⟩ = 0
    ∧ ⌊(-(1e-17) : ℚ) * SCCM_to_mols * NA * time_per_frame * (1 : ℚ)⌋ = -1 := by
  refine ⟨by norm_num [validate], ?_, ?_⟩
  · norm_num [molecule_per_frame, molecule_per_s, mol_per_s, pyInt, NA,
      SCCM_to_mols, time_per_frame]
  · norm_num [SCCM_to_mols, NA, time_per_frame]

/-- C3, amended.  The per-frame molecule budget is the product
flow_rate times 7.45e-7 times 6.022e23 times seconds_per_frame times
sticking_coefficient truncated toward zero (Python int), with
seconds_per_frame = 10/50 = 1/5; this equals the floor of the product
whenever the product is nonnegative, in particular for every
nonnegative flow rate, but not for fractional negative products. -/
theorem claim3_budget_truncation (p : Params) :
    molecule_per_frame p
        = pyInt (p.sccm * SCCM_to_mols * NA * time_per_frame * p.stick_coeff)
    ∧ time_per_frame = 1 / 5
    ∧ (0 ≤ p.sccm * SCCM_to_mols * NA * time_per_frame * p.stick_coeff →
        molecule_per_frame p
          = ⌊p.sccm * SCCM_to_mols * NA * time_per_frame * p.stick_coeff⌋) := by
  have harr : molecule_per_s p * time_per_frame * p.stick_coeff
      = p.sccm * SCCM_to_mols * NA * time_per_frame * p.stick_coeff := by
    rw [molecule_per_s, mol_per_s]
  refine ⟨?_, by norm_num [time_per_frame], ?_⟩
  · rw [molecule_per_frame, harr]
  · intro h
    rw [molecule_per_frame, harr]
    exact pyInt_eq_floor h

/-- C3, witness for the amended statement at a nonnegative product. -/
theorem claim3_witness :
    (0 ≤ (500 : ℚ) * SCCM_to_mols * NA * time_per_frame * (1 / 2 : ℚ))
    ∧ molecule_per_frame ⟨"nanorod", 500, 1 / 2, 1000, 2⟩
        = ⌊(500 : ℚ) * SCCM_to_mols * NA * time_per_frame * (1 / 2 : ℚ)⌋ := by
  have h : 0 ≤ (500 : ℚ) * SCCM_to_mols * NA * time_per_frame * (1 / 2 : ℚ) := by
    norm_num [SCCM_to_mols, NA, time_per_frame]
  exact ⟨h, (claim3_budget_truncation ⟨"nanorod", 500, 1 / 2, 1000, 2⟩).2.2 h⟩

/-- C2.  After a completed run the point cloud length is 50 times the
floor of per_frame_molecule_budget times morphology_multiplier, the
same count is reached on every frame prefix (n times the effective
count after n frames), and the total is independent of the random
positions drawn. -/
theorem claim2_cloud_length (p : Params) (gen : Gen) (st : SimState)
    (hok : simulate p gen = Except.ok st) :
    ((st.adsorbed_positions.length : ℤ)
        = 50 * ⌊(molecule_per_frame p : ℚ) * adsorption_multiplier p.surface_type⌋)
    ∧ (∀ gen2 st2, simulate p gen2 = Except.ok st2 →
        st2.adsorbed_positions.length = st.adsorbed_positions.length)
    ∧ (∀ n, n ≤ 50 → ∀ stn, simN (effective_molecules p) gen n = Except.ok stn →
        stn.adsorbed_positions.length = n * (effective_molecules p).toNat) := by
  obtain ⟨hpos, hst⟩ := simulate_ok p gen st hok
  have hlen : st.adsorbed_positions.length = 50 * (effective_molecules p).toNat := by
    rw [hst, (runState_spec _ gen 50).1, cloud_after_length]
  have hfloor : effective_molecules p
      = ⌊(molecule_per_frame p : ℚ) * adsorption_multiplier p.surface_type⌋ := by
    rw [effective_molecules] at hpos ⊢
    exact pyInt_eq_floor (nonneg_of_pyInt_pos hpos)
  refine ⟨?_, ?_, ?_⟩
  · rw [hlen, ← hfloor]
    push_cast
    rw [Int.toNat_of_nonneg (by omega : (0 : ℤ) ≤ effective_molecules p)]
  · intro gen2 st2 hok2
    obtain ⟨_, hst2⟩ := simulate_ok p gen2 st2 hok2
    rw [hst2, (runState_spec _ gen2 50).1, cloud_after_length, hlen]
  · intro n _ stn hokn
    have hsim := simN_ok (effective_molecules p) gen hpos n
    rw [hsim] at hokn
    have heq : stn = runState (effective_molecules p).toNat gen n :=
      ((Except.ok.injEq _ _).mp hokn.symm)
    rw [heq, (runState_spec _ gen n).1, cloud_after_length]

/-- C2, witness: the deterministic length equation at the concrete
completed run of the witness parameters. -/
theorem claim2_witness :
    (((runState 1 gen0 50).adsorbed_positions.length : ℤ)
        = 50 * ⌊(molecule_per_frame pW : ℚ) * adsorption_multiplier pW.surface_type⌋) :=
  (claim2_cloud_length pW gen0 (runState 1 gen0 50) simulate_pW).1

/-- Adjacent entries of List.range 10 are increasing. -/
theorem chain_lt_range10 : List.Chain' (fun i j : ℕ => i < j) (List.range 10) := by
  rw [List.chain'_iff_get]
  intro i h
  simp only [List.length_range] at h
  simp [List.get_eq_getElem, List.getElem_range]

/-- C4.  A completed run records exactly 10 samples whose seconds are
1 to 10 in strictly increasing order with non-decreasing cumulative
counts, and after any prefix of n frames exactly n / 5 samples exist,
so the j-th sample is recorded during frame 5j - 1, that is at
zero-indexed frames 4, 9, ..., 49. -/
theorem claim4_time_series (p : Params) (gen : Gen) (st : SimState)
    (hok : simulate p gen = Except.ok st) :
    st.time_points.map Sample.second = [1, 2, 3, 4, 5, 6, 7, 8, 9, 10]
    ∧ List.Chain' (fun a b => a.second < b.second) st.time_points
    ∧ List.Chain' (fun a b => a.count ≤ b.count) st.time_points
    ∧ (∀ n, n ≤ 50 → ∀ stn, simN (effective_molecules p) gen n = Except.ok stn →
        stn.time_points.length = n / 5) := by
  obtain ⟨hpos, hst⟩ := simulate_ok p gen st hok
  have h505 : (50 : ℕ) / 5 = 10 := by norm_num
  have htp : st.time_points
      = (List.range 10).map
          (fun i => sample_at (effective_molecules p).toNat (i + 1)) := by
    rw [hst, (runState_spec _ gen 50).2.2, h505]
  have hsec : st.time_points.map Sample.second = [1, 2, 3, 4, 5, 6, 7, 8, 9, 10] := by
    rw [htp, List.map_map]
    rfl
  refine ⟨hsec, ?_, ?_, ?_⟩
  · rw [htp, List.chain'_map]
    refine chain_lt_range10.imp ?_
    intro a b hab
    simp only [sample_at]
    omega
  · rw [htp, List.chain'_map]
    refine chain_lt_range10.imp ?_
    intro a b hab
    simp only [sample_at]
    exact Nat.mul_le_mul (Nat.mul_le_mul le_rfl (by omega)) le_rfl
  · intro n _ stn hokn
    have hsim := simN_ok (effective_molecules p) gen hpos n
    rw [hsim] at hokn
    have heq : stn = runState (effective_molecules p).toNat gen n :=
      ((Except.ok.injEq _ _).mp hokn.symm)
    rw [heq, (runState_spec _ gen n).2.2, List.length_map, List.length_range]

/-- C4, witness: the witness run records the seconds 1 to 10. -/
theorem claim4_witness :
    (runState 1 gen0 50).time_points.map Sample.second
      = [1, 2, 3, 4, 5, 6, 7, 8, 9, 10] :=
  (claim4_time_series pW gen0 (runState 1 gen0 50) simulate_pW).1

/-- C5.  Every recorded sample of a completed run carries resistance
baseline_resistance times exp of sensitivity_coefficient times
min(count / 1e6, 1), where 1e6 is the max_sites constant and the
count of sample i is the point cloud length at its sampling frame
(after frame 5i + 4, the state of prefix 5i + 5). -/
theorem claim5_resistance (p : Params) (gen : Gen) (st : SimState)
    (hok : simulate p gen = Except.ok st) :
    ∀ (i : ℕ) (s : Sample), st.time_points[i]? = some s →
      (resistance_of p.r0 p.k s
          = (p.r0 : ℝ) * Real.exp ((p.k : ℝ) * min ((s.count : ℝ) / 1000000) 1))
      ∧ (∀ stn, simN (effective_molecules p) gen (5 * i + 5) = Except.ok stn →
          s.count = stn.adsorbed_positions.length) := by
  obtain ⟨hpos, hst⟩ := simulate_ok p gen st hok
  intro i s hs
  have h505 : (50 : ℕ) / 5 = 10 := by norm_num
  have htp : st.time_points
      = (List.range 10).map
          (fun j => sample_at (effective_molecules p).toNat (j + 1)) := by
    rw [hst, (runState_spec _ gen 50).2.2, h505]
  rw [htp] at hs
  have hi10 : i < 10 := by
    by_contra hge
    push_neg at hge
    rw [List.getElem?_eq_none (by simpa using hge)] at hs
    exact Option.noConfusion hs
  have hsome : ((List.range 10).map
      (fun j => sample_at (effective_molecules p).toNat (j + 1)))[i]?
      = some (sample_at (effective_molecules p).toNat (i + 1)) := by
    rw [List.getElem?_eq_getElem (by simpa using hi10)]
    simp [List.getElem_map, List.getElem_range]
  rw [hsome] at hs
  have hsval : s = sample_at (effective_molecules p).toNat (i + 1) :=
    ((Option.some.injEq _ _).mp hs).symm
  subst hsval
  constructor
  · have hcast : (((sample_at (effective_molecules p).toNat (i + 1)).coverage : ℚ) : ℝ)
        = min ((((sample_at (effective_molecules p).toNat (i + 1)).count : ℕ) : ℝ)
            / 1000000) 1 := by
      simp only [sample_at]
      push_cast [max_sites]
      norm_num
    rw [resistance_of, hcast]
  · intro stn hokn
    have hsim := simN_ok (effective_molecules p) gen hpos (5 * i + 5)
    rw [hsim] at hokn
    have heq : stn = runState (effective_molecules p).toNat gen (5 * i + 5) :=
      ((Except.ok.injEq _ _).mp hokn.symm)
    rw [heq, (runState_spec _ gen (5 * i + 5)).1, cloud_after_length]
    simp only [sample_at]
    ring

/-- C5, witness: the resistance formula for the first sample of the
witness run. -/
theorem claim5_witness :
    resistance_of pW.r0 pW.k (sample_at 1 1)
      = (pW.r0 : ℝ) * Real.exp ((pW.k : ℝ)
          * min (((sample_at 1 1).count : ℝ) / 1000000) 1) := by
  have hs : (runState 1 gen0 50).time_points[0]? = some (sample_at 1 1) := by
    rw [(runState_spec 1 gen0 50).2.2]
    norm_num [List.getElem?_eq_getElem, List.getElem_map, List.getElem_range]
  exact (claim5_resistance pW gen0 (runState 1 gen0 50) simulate_pW 0 (sample_at 1 1) hs).1

/-- C6.  Validation fails exactly when a numeric field fails to parse
or the sticking coefficient leaves [0,1] (so 0 and 1 themselves are
accepted); on failure the outcome is the fixed message and no frames
or samples are produced. -/
theorem claim6_validation (surface : String) (a b c d : Option ℚ) (gen : Gen) :
    (run_simulation surface a b c d gen = RunOutcome.invalidInput
        ↔ validate surface a b c d = none)
    ∧ (validate surface a b c d = none
        ↔ a = none ∨ b = none ∨ c = none ∨ d = none
            ∨ ∃ s, b = some s ∧ ¬(0 ≤ s ∧ s ≤ 1))
    ∧ (validate surface a b c d = none →
        samples_of (run_simulation surface a b c d gen) = [])
    ∧ status_of RunOutcome.invalidInput = "Please enter valid inputs." := by
  have h1 : run_simulation surface a b c d gen = RunOutcome.invalidInput
      ↔ validate surface a b c d = none := by
    rw [run_simulation]
    cases hv : validate surface a b c d with
    | none => simp
    | some p => cases hsim : simulate p gen <;> simp [hsim]
  have h2 : validate surface a b c d = none
      ↔ a = none ∨ b = none ∨ c = none ∨ d = none
          ∨ ∃ s, b = some s ∧ ¬(0 ≤ s ∧ s ≤ 1) := by
    rcases a with _ | va <;> rcases b with _ | vb <;> rcases c with _ | vc
      <;> rcases d with _ | vd <;> simp [validate]
  refine ⟨h1, h2, fun hn => ?_, rfl⟩
  rw [h1.mpr hn]
  rfl

/-- C6, witness: a missing flow-rate parse is rejected. -/
theorem claim6_witness :
    validate "nanorod" none (some 1) (some 1000) (some 2) = none :=
  (claim6_validation "nanorod" none (some 1) (some 1000) (some 2) gen0).2.1.mpr
    (Or.inl rfl)

/-- C7.  The morphology table maps the rod, flake and particle
selections to 2.0, 1.2 and 0.8; every other string falls back to 1.0,
and the selection can never cause a validation error (validation does
not look at it). -/
theorem claim7_morphology :
    adsorption_multiplier "nanorod" = 2
    ∧ adsorption_multiplier "nanoflake" = 1.2
    ∧ adsorption_multiplier "nanoparticle" = 0.8
    ∧ (∀ s : String, s ≠ "nanorod" → s ≠ "nanoflake" → s ≠ "nanoparticle" →
        adsorption_multiplier s = 1)
    ∧ (∀ (s s2 : String) (a b c d : Option ℚ),
        (validate s a b c d).isSome = (validate s2 a b c d).isSome) := by
  refine ⟨?_, ?_, ?_, ?_, ?_⟩
  · norm_num [adsorption_multiplier]
  · simp +decide [adsorption_multiplier]
  · simp +decide [adsorption_multiplier]
  · intro s h1 h2 h3
    norm_num [adsorption_multiplier, h1, h2, h3]
  · intro s s2 a b c d
    rcases a with _ | va <;> rcases b with _ | vb <;> rcases c with _ | vc
      <;> rcases d with _ | vd <;> simp [validate]
    split_ifs <;> rfl

/-- C7, witness: the empty selection string yields the default
multiplier 1.0. -/
theorem claim7_witness : adsorption_multiplier "" = 1 :=
  claim7_morphology.2.2.2.1 "" (by decide) (by decide) (by decide)

/-- The witness generator always draws the in-range point (1, 1). -/
theorem hgen0 : ∀ t i, 0 ≤ (gen0 t i).1 ∧ (gen0 t i).1 < surface_length
    ∧ 0 ≤ (gen0 t i).2 ∧ (gen0 t i).2 < surface_width := by
  intro t i
  norm_num [gen0, surface_length, surface_width]

/-- An event deposited in frame t is in the cloud of every longer
prefix. -/
theorem mem_cloud_after_of_mem_frame {eff : ℕ} {gen : Gen} {t : ℕ} {ev : Ev}
    (hev : ev ∈ frame_points eff gen t) :
    ∀ {n : ℕ}, t < n → ev ∈ cloud_after eff gen n
  | n + 1, h => by
      rw [cloud_after, List.mem_append]
      by_cases ht : t < n
      · exact Or.inl (mem_cloud_after_of_mem_frame hev ht)
      · have htn : t = n := by omega
        subst htn
        exact Or.inr hev

/-- The constant draw of the witness run is in its final cloud. -/
theorem mem_pW :
    (((1 : ℚ), (1 : ℚ), (2 : ℚ)) : Ev) ∈ (runState 1 gen0 50).adsorbed_positions := by
  rw [(runState_spec 1 gen0 50).1]
  refine mem_cloud_after_of_mem_frame ?_ (by omega : 0 < 50)
  simp [frame_points, gen0, surface_thickness]

/-- C8.  Every adsorption event of every frame of a completed run has
x in [0, surface_length], y in [0, surface_width] and z exactly equal
to surface_thickness, given the contract of np.random.uniform that
each draw lies in [0, high). -/
theorem claim8_event_bounds (p : Params) (gen : Gen) (st : SimState)
    (hok : simulate p gen = Except.ok st)
    (hgen : ∀ t i, 0 ≤ (gen t i).1 ∧ (gen t i).1 < surface_length
        ∧ 0 ≤ (gen t i).2 ∧ (gen t i).2 < surface_width) :
    ∀ ev ∈ st.adsorbed_positions,
      0 ≤ ev.1 ∧ ev.1 ≤ surface_length ∧ 0 ≤ ev.2.1 ∧ ev.2.1 ≤ surface_width
        ∧ ev.2.2 = surface_thickness := by
  obtain ⟨_, hst⟩ := simulate_ok p gen st hok
  intro ev hev
  rw [hst, (runState_spec _ gen 50).1] at hev
  obtain ⟨t, i, hrep⟩ := mem_cloud_after hev
  obtain ⟨h1, h2, h3, h4⟩ := hgen t i
  subst hrep
  exact ⟨h1, le_of_lt h2, h3, le_of_lt h4, rfl⟩

/-- C8, witness: the bounds at the concrete event of the witness
run. -/
theorem claim8_witness :
    0 ≤ (((1 : ℚ), (1 : ℚ), (2 : ℚ)) : Ev).1
    ∧ (((1 : ℚ), (1 : ℚ), (2 : ℚ)) : Ev).1 ≤ surface_length
    ∧ 0 ≤ (((1 : ℚ), (1 : ℚ), (2 : ℚ)) : Ev).2.1
    ∧ (((1 : ℚ), (1 : ℚ), (2 : ℚ)) : Ev).2.1 ≤ surface_width
    ∧ (((1 : ℚ), (1 : ℚ), (2 : ℚ)) : Ev).2.2 = surface_thickness :=
  claim8_event_bounds pW gen0 (runState 1 gen0 50) simulate_pW hgen0 _ mem_pW

/-- C9.  On every frame of a completed run the grand total of the
50 by 50 density grid equals the current point cloud length: every
point lies inside the binning range, so rasterization drops
nothing. -/
theorem claim9_raster_total (p : Params) (gen : Gen) (st : SimState)
    (hok : simulate p gen = Except.ok st)
    (hgen : ∀ t i, 0 ≤ (gen t i).1 ∧ (gen t i).1 < surface_length
        ∧ 0 ≤ (gen t i).2 ∧ (gen t i).2 < surface_width) :
    ∀ n, n ≤ 50 → ∀ stn, simN (effective_molecules p) gen n = Except.ok stn →
      Finset.univ.sum (density_grid stn.adsorbed_positions)
        = stn.adsorbed_positions.length := by
  obtain ⟨hpos, _⟩ := simulate_ok p gen st hok
  intro n _ stn hokn
  have hsim := simN_ok (effective_molecules p) gen hpos n
  rw [hsim] at hokn
  have heq : stn = runState (effective_molecules p).toNat gen n :=
    ((Except.ok.injEq _ _).mp hokn.symm)
  subst heq
  rw [density_grid_total]
  apply List.countP_eq_length.mpr
  intro ev hev
  rw [(runState_spec _ gen n).1] at hev
  obtain ⟨t, i, hrep⟩ := mem_cloud_after hev
  obtain ⟨h1, h2, h3, h4⟩ := hgen t i
  subst hrep
  exact bin_of_isSome h1 (le_of_lt h2) h3 (le_of_lt h4)

/-- C9, witness: the grid of the final frame of the witness run counts all
50 points. -/
theorem claim9_witness :
    Finset.univ.sum (density_grid (runState 1 gen0 50).adsorbed_positions)
      = (runState 1 gen0 50).adsorbed_positions.length :=
  claim9_raster_total pW gen0 (runState 1 gen0 50) simulate_pW hgen0 50 (by omega)
    (runState 1 gen0 50) simulate_pW

end Adsorption
